import Mathlib

/-!
Verification of the multi-model ensemble decision policy of the respiroai
backend (`backend/unified_app.py`): the per-classifier thresholding, the
`predict_disease` aggregator and the `generate_medical_report` composer.

Probabilities are modelled as exact rationals (`ℚ`); the decision logic only
compares, maximises and sorts them, so the arithmetic is faithful to the
source.  The wall clock (`datetime.now()`) is modelled as an explicit `Nat`
parameter.  Classifier inference is a black box upstream of the aggregator, so
a run is modelled by what the aggregator actually consumes: for each disease
key of the `models` dict, whether the model was loaded, and if so either the
raw output vector of `model.predict` or the fact that it raised.
-/

namespace Respiro

/-- The keys of the `MODEL_PATHS` / `models` dicts, in insertion order
pneumonia, tuberculosis, lung_cancer (`unified_app.py` lines 75-79). -/
inductive Disease : Type
  | pneumonia : Disease
  | tuberculosis : Disease
  | lung_cancer : Disease
deriving DecidableEq, Repr

/-- Outcome of one `model.predict` call: `none` models the call raising an
exception, `some out` the returned probability vector `prediction[0]`. -/
def PredictOutcome : Type := Option (List ℚ)

/-- Per-classifier labelling, `unified_app.py` lines 466-534.  `pneumonia` and
`tuberculosis` read `prediction[0][0]` and threshold at 0.5; `lung_cancer`
branches on the output length (3-class softmax, legacy 2-class, or an
unexpected shape which is tagged `error`).  A raised exception — including the
IndexError from reading `prediction[0][0]` of an empty vector — is caught by
the `except` clause and recorded as `("error", 0.0)`. -/
def classifyOne (d : Disease) (o : Option (List ℚ)) : String × ℚ :=
  match o with
  | none => ("error", 0)
  | some out =>
    match d with
    | Disease.pneumonia =>
      match out with
      | [] => ("error", 0)
      | p :: _ => if p > 0.5 then ("pneumonia", p) else ("normal", 1 - p)
    | Disease.tuberculosis =>
      match out with
      | [] => ("error", 0)
      | p :: _ => if p > 0.5 then ("tuberculosis", p) else ("normal", 1 - p)
    | Disease.lung_cancer =>
      match out with
      | [n, b, m] =>
        let mx := max n (max b m)
        if m = mx then ("lung_cancer_malignant", m)
        else if b = mx then ("lung_cancer_benign", b)
        else ("normal", n)
      | [n, c] =>
        if c > n then ("lung_cancer", c) else ("normal", n)
      | _ => ("error", 0)

/-- One prediction run, as consumed by the aggregation loop: for each disease
key (in `models` dict order) `none` when the model was never loaded, otherwise
the outcome of its `model.predict` call. -/
structure RunInput : Type where
  pneumonia : Option (Option (List ℚ))
  tuberculosis : Option (Option (List ℚ))
  lung_cancer : Option (Option (List ℚ))
deriving DecidableEq, Repr

/-- The `models.items()` sequence of the run: loaded models with their predict
outcome, in dict insertion order. -/
def RunInput.entries (r : RunInput) : List (Disease × Option (List ℚ)) :=
  (match r.pneumonia with
   | none => []
   | some o => [(Disease.pneumonia, o)]) ++
  (match r.tuberculosis with
   | none => []
   | some o => [(Disease.tuberculosis, o)]) ++
  (match r.lung_cancer with
   | none => []
   | some o => [(Disease.lung_cancer, o)])

/-- The `predictions` / `confidence_scores` dicts after the loop of lines
465-534, as an insertion-ordered association list. -/
def classified (r : RunInput) : List (Disease × String × ℚ) :=
  r.entries.map (fun e => (e.1, classifyOne e.1 e.2))

/-- The `significant_diseases` dict (lines 537-543): entries whose label is
neither `normal` nor `error` and whose confidence exceeds 0.5, in the
iteration order of `confidence_scores` (Python dicts preserve insertion
order). -/
def significant (r : RunInput) : List (Disease × String × ℚ) :=
  (classified r).filter
    (fun e => e.2.1 ≠ "normal" ∧ e.2.1 ≠ "error" ∧ e.2.2 > 0.5)

/-- Python's `max(keys, key=...)` over `significant_diseases` (lines 552-555):
the first entry attaining the maximal confidence. -/
def maxByConf (l : List (Disease × String × ℚ)) :
    Option (Disease × String × ℚ) :=
  match l with
  | [] => none
  | x :: xs => some (xs.foldl (fun acc y => if y.2.2 > acc.2.2 then y else acc) x)

/-- Python's `max(confidence_scores.values())` on a nonempty list. -/
def listMax (l : List ℚ) : ℚ :=
  match l with
  | [] => 0
  | c :: cs => cs.foldl max c

/-- The `result` dict assembled at lines 576-586 (`model_status` is a
process-wide constant and is omitted; `timestamp` is the `datetime.now()`
reading). -/
structure PredictionResult : Type where
  primary_diagnosis : String
  confidence : ℚ
  all_predictions : List (Disease × String)
  confidence_scores : List (Disease × ℚ)
  significant_diseases : List (Disease × String × ℚ)
  multiple_findings : Bool
  image_quality : ℚ
  timestamp : Nat
deriving DecidableEq, Repr

/-- Lines 536-573: pick the primary diagnosis, the overall confidence and the
`multiple_findings` flag, then apply the fix-ups of lines 560-564 (`not
final_diagnosis` is true exactly for the empty string, `not final_confidence
or final_confidence == 0` exactly for the value 0.0). -/
def aggregateResult (r : RunInput) (quality : ℚ) (now : Nat) : PredictionResult :=
  let sig := significant r
  let triple : String × ℚ × Bool :=
    match maxByConf sig with
    | none =>
      let scores := (classified r).map (fun e => e.2.2)
      ("normal", if scores = [] then 0.85 else listMax scores, false)
    | some best => (best.2.1, best.2.2, decide (sig.length > 1))
  let fd := if triple.1 = "" then "normal" else triple.1
  let fc := if triple.2.1 = 0 then (if fd = "normal" then 0.85 else 0.5)
            else triple.2.1
  { primary_diagnosis := fd
    confidence := fc
    all_predictions := (classified r).map (fun e => (e.1, e.2.1))
    confidence_scores := (classified r).map (fun e => (e.1, e.2.2))
    significant_diseases := sig
    multiple_findings := triple.2.2
    image_quality := quality
    timestamp := now }

/-- `predict_disease` (lines 452-592): `none` models the `return None` paths
(image preprocessing failed, or the outer exception handler fired); otherwise
the aggregation runs on the classifier outcomes and the image quality score
produced by preprocessing. -/
def predict_disease (pre : Option (RunInput × ℚ)) (now : Nat) :
    Option PredictionResult :=
  match pre with
  | none => none
  | some (r, q) => some (aggregateResult r q now)

/-- The `/predict` route check at lines 976-979: `if not prediction_result`
rejects with the generic `Failed to analyze image` error.  The result dict is
always non-empty, so the check is true exactly when `predict_disease` returned
`None`. -/
def routeRejects (res : Option PredictionResult) : Bool :=
  res.isNone

/-- One entry of the static `DISEASE_INFO` table (lines 156-285). -/
structure DiseaseData : Type where
  name : String
  description : String
  symptoms : List String
  treatments : List String
  severity_levels : List (String × String)
deriving DecidableEq, Repr

def pneumoniaInfo : DiseaseData :=
  { name := "Pneumonia"
    description := "An infection that inflames air sacs in one or both lungs, filling them with fluid or pus"
    symptoms := ["Chest pain when breathing or coughing",
                 "Cough with phlegm or pus",
                 "Fever, sweating and shaking chills",
                 "Shortness of breath",
                 "Fatigue",
                 "Nausea, vomiting or diarrhea"]
    treatments := ["Antibiotics (for bacterial pneumonia)",
                   "Antiviral medications (for viral pneumonia)",
                   "Rest and increased fluid intake",
                   "Over-the-counter pain relievers",
                   "Hospitalization if severe"]
    severity_levels := [("mild", "Outpatient treatment with oral antibiotics"),
                        ("moderate", "May require short hospitalization"),
                        ("severe", "ICU admission and intensive treatment")] }

def tuberculosisInfo : DiseaseData :=
  { name := "Tuberculosis (TB)"
    description := "A bacterial infection caused by Mycobacterium tuberculosis that primarily affects the lungs"
    symptoms := ["Persistent cough lasting 3+ weeks",
                 "Coughing up blood or sputum",
                 "Chest pain or pain with breathing",
                 "Unintentional weight loss",
                 "Fatigue and weakness",
                 "Night sweats",
                 "Chills and fever"]
    treatments := ["Anti-TB medication course (6-9 months)",
                   "Isoniazid, Rifampin, Pyrazinamide, Ethambutol",
                   "Directly Observed Therapy (DOT)",
                   "Regular monitoring and testing",
                   "Isolation during infectious period"]
    severity_levels := [("latent", "Not infectious, preventive treatment"),
                        ("active", "Infectious, immediate treatment required"),
                        ("drug_resistant", "Extended treatment with special drugs")] }

def lungCancerInfo : DiseaseData :=
  { name := "Lung Cancer"
    description := "Cancer that begins in the lungs, often linked to smoking but can affect non-smokers"
    symptoms := ["Persistent cough that gets worse",
                 "Coughing up blood",
                 "Shortness of breath",
                 "Chest pain",
                 "Hoarseness",
                 "Unexplained weight loss",
                 "Bone pain",
                 "Headache"]
    treatments := ["Surgery (lobectomy, pneumonectomy)",
                   "Chemotherapy",
                   "Radiation therapy",
                   "Targeted therapy",
                   "Immunotherapy",
                   "Palliative care"]
    severity_levels := [("stage_1", "Early stage, confined to lung"),
                        ("stage_2", "Spread to nearby lymph nodes"),
                        ("stage_3", "Spread to mediastinal lymph nodes"),
                        ("stage_4", "Metastatic, spread to other organs")] }

def lungCancerBenignInfo : DiseaseData :=
  { name := "Benign Lung Tumor"
    description := "Non-cancerous growths in the lungs that do not spread to other parts of the body"
    symptoms := ["Mild cough",
                 "Shortness of breath (if large)",
                 "Chest discomfort",
                 "Usually asymptomatic"]
    treatments := ["Regular monitoring",
                   "Surgical removal if symptomatic",
                   "Follow-up imaging",
                   "No chemotherapy needed"]
    severity_levels := [("small", "Monitor with regular imaging"),
                        ("large", "May require surgical removal"),
                        ("symptomatic", "Requires intervention")] }

def lungCancerMalignantInfo : DiseaseData :=
  { name := "Malignant Lung Cancer"
    description := "Cancerous growths in the lungs that can spread to other organs and require immediate treatment"
    symptoms := ["Persistent cough with blood",
                 "Severe shortness of breath",
                 "Chest pain",
                 "Rapid weight loss",
                 "Fatigue",
                 "Bone pain",
                 "Neurological symptoms"]
    treatments := ["Immediate oncology consultation",
                   "Staging scans (CT, PET)",
                   "Surgery if operable",
                   "Chemotherapy",
                   "Radiation therapy",
                   "Targeted therapy",
                   "Immunotherapy"]
    severity_levels := [("early", "T1-T2, localized, good prognosis"),
                        ("advanced", "T3-T4, regional spread"),
                        ("metastatic", "M1, distant metastases")] }

/-- The `DISEASE_INFO` dict as a lookup by key (lines 156-285). -/
def DISEASE_INFO (key : String) : Option DiseaseData :=
  if key = "pneumonia" then some pneumoniaInfo
  else if key = "tuberculosis" then some tuberculosisInfo
  else if key = "lung_cancer" then some lungCancerInfo
  else if key = "lung_cancer_benign" then some lungCancerBenignInfo
  else if key = "lung_cancer_malignant" then some lungCancerMalignantInfo
  else none

/-- Python `str.title()` for the ASCII strings of this code base: a letter is
upper-cased when the previous character is not a letter, lower-cased
otherwise. -/
def pyTitleAux : Bool → List Char → List Char
  | _, [] => []
  | prevAlpha, c :: cs =>
    (if c.isAlpha then (if prevAlpha then c.toLower else c.toUpper) else c) ::
      pyTitleAux c.isAlpha cs

def pyTitle (s : String) : String := String.mk (pyTitleAux false s.data)

/-- Python `.replace('_', ' ')` on the diagnosis keys. -/
def underscoresToSpaces (s : String) : String :=
  String.mk (s.data.map (fun c => if c = '_' then ' ' else c))

/-- One entry of the report's `all_findings` list (lines 623-630).  The
`'confidence'` key holds the `:.1%`-formatted rendering of
`confidence_numeric`; only the numeric value is modelled. -/
structure Finding : Type where
  disease : String
  confidence_numeric : ℚ
  description : String
  symptoms : List String
  treatments : List String
deriving DecidableEq, Repr

/-- The finding dict built per significant disease (lines 621-631). -/
def mkFinding (diagnosis : String) (conf : ℚ) : Finding :=
  { disease := pyTitle (underscoresToSpaces diagnosis)
    confidence_numeric := conf
    description := (DISEASE_INFO diagnosis).elim "Unknown condition" DiseaseData.description
    symptoms := (DISEASE_INFO diagnosis).elim [] DiseaseData.symptoms
    treatments := (DISEASE_INFO diagnosis).elim [] DiseaseData.treatments }

/-- `all_findings.sort(key=lambda x: x['confidence_numeric'], reverse=True)`
(line 634): Python's sort is stable and `reverse=True` keeps equal keys in
their original order, which is exactly stable insertion sort under the
descending relation. -/
def sortFindings (l : List Finding) : List Finding :=
  List.insertionSort (fun a b => b.confidence_numeric ≤ a.confidence_numeric) l

/-- The report dict (lines 602-683).  Keys the code only sometimes sets are
`Option`; `confidence` and `image_quality` keep the numeric values that the
code renders with `:.1%` and `:.1f`; `timestamp` is the `datetime.now()`
reading made explicit. -/
structure Report : Type where
  summary : String
  diagnosis : String
  confidence : ℚ
  timestamp : Nat
  image_quality : ℚ
  description : Option String := none
  symptoms : Option (List String) := none
  treatments : Option (List String) := none
  severity_levels : Option (List (String × String)) := none
  recommendation : Option String := none
  urgency : Option String := none
  multiple_findings : Bool
  all_findings : List Finding
  findings_count : Option Nat := none
  quality_note : Option String := none
deriving DecidableEq, Repr

/-- The body of `generate_medical_report` after the four key reads (lines
602-683): the normal-case report, or the disease report with all significant
findings, metadata for the primary diagnosis, urgency, and the quality note
appended when the image quality score is below 50. -/
def buildReport (diagnosis : String) (confidence : ℚ)
    (sig : List (Disease × String × ℚ)) (multi : Bool) (iq : ℚ) (now : Nat) :
    Report :=
  let base : Report :=
    if diagnosis = "normal" then
      { summary := "Medical Image Analysis Report - Normal Finding"
        diagnosis := "Normal"
        confidence := confidence
        timestamp := now
        image_quality := iq
        description := some "No signs of pneumonia, tuberculosis, or lung cancer detected. Chest X-ray appears normal."
        recommendation := some "Chest X-ray appears normal. Continue regular health monitoring."
        urgency := some "Low"
        multiple_findings := false
        all_findings := [] }
    else
      let all_findings := sortFindings (sig.map (fun e => mkFinding e.2.1 e.2.2))
      let summary : String :=
        if multi then
          "Medical Image Analysis Report - Multiple Findings: " ++
            String.intercalate ", " (all_findings.map Finding.disease)
        else
          "Medical Image Analysis Report - " ++
            pyTitle (underscoresToSpaces diagnosis) ++ " Detected"
      let rep0 : Report :=
        { summary := summary
          diagnosis := pyTitle (underscoresToSpaces diagnosis)
          confidence := confidence
          timestamp := now
          image_quality := iq
          multiple_findings := multi
          all_findings := all_findings
          findings_count := some all_findings.length }
      let rep1 : Report :=
        match DISEASE_INFO diagnosis with
        | some info =>
          { rep0 with
              description := some info.description
              symptoms := some info.symptoms
              treatments := some info.treatments
              severity_levels := some info.severity_levels }
        | none => rep0
      if multi then
        { rep1 with
            recommendation := some ("Multiple significant findings detected (" ++
              toString all_findings.length ++
              " conditions). Immediate comprehensive medical evaluation recommended.")
            urgency := some "High" }
      else if confidence > 0.8 then
        { rep1 with
            recommendation := some "High confidence prediction. Recommend immediate medical consultation."
            urgency := some "High" }
      else if confidence > 0.6 then
        { rep1 with
            recommendation := some "Moderate confidence prediction. Recommend medical review."
            urgency := some "Medium" }
      else
        { rep1 with
            recommendation := some "Low confidence prediction. Additional testing recommended."
            urgency := some "Low" }
  if iq < 50 then
    { base with
        quality_note := some "Image quality is suboptimal. Consider retaking with better lighting/positioning." }
  else base

/-- The `prediction_result` argument of `generate_medical_report` as the
loosely-typed dict it is in Python: each key may be missing.  A missing
`primary_diagnosis`, `confidence` or `image_quality` raises KeyError inside
the `try` (lines 597-598, 609, 649, 680); `significant_diseases` and
`multiple_findings` are read with `.get` defaults (lines 599-600). -/
structure PredDict : Type where
  primary_diagnosis : Option String := none
  confidence : Option ℚ := none
  significant_diseases : Option (List (Disease × String × ℚ)) := none
  multiple_findings : Option Bool := none
  image_quality : Option ℚ := none
deriving DecidableEq, Repr

/-- `d[key]`: the value, or a raised KeyError. -/
def expectKey : Option α → Except Unit α
  | none => Except.error ()
  | some a => Except.ok a

/-- The `try` block of `generate_medical_report`: every dict read that can
raise, then the report construction.  `image_quality` is read by both the
normal and the disease branch (lines 609 and 649) and again at line 680, so
hoisting the single read is faithful to the error behaviour. -/
def reportBody (d : PredDict) (now : Nat) : Except Unit Report := do
  let diagnosis ← expectKey d.primary_diagnosis
  let confidence ← expectKey d.confidence
  let sig := d.significant_diseases.getD []
  let multi := d.multiple_findings.getD false
  let iq ← expectKey d.image_quality
  return buildReport diagnosis confidence sig multi iq now

/-- The value `generate_medical_report` hands back: a report dict, or the
`{"error": "Could not generate report"}` dict from the `except` clause. -/
inductive ReportOut : Type
  | report (rep : Report)
  | failure (msg : String)
deriving DecidableEq, Repr

/-- `generate_medical_report` (lines 594-687): any exception inside the body
is caught and turned into the fixed error dict. -/
def generate_medical_report (d : PredDict) (now : Nat) : ReportOut :=
  match reportBody d now with
  | Except.ok rep => ReportOut.report rep
  | Except.error _ => ReportOut.failure "Could not generate report"

/-- The fields of a `predict_disease` result that `generate_medical_report`
reads, all present (the result dict always carries them). -/
def toPredDict (res : PredictionResult) : PredDict :=
  { primary_diagnosis := some res.primary_diagnosis
    confidence := some res.confidence
    significant_diseases := some res.significant_diseases
    multiple_findings := some res.multiple_findings
    image_quality := some res.image_quality }

/-- The aggregation-plus-report pipeline of the `/predict` route (lines
976-985): `tPred` and `tRep` are the two `datetime.now()` readings. -/
def run_pipeline (r : RunInput) (q : ℚ) (tPred tRep : Nat) : Option ReportOut :=
  (predict_disease (some (r, q)) tPred).map
    (fun res => generate_medical_report (toPredDict res) tRep)

/-- A report with its wall-clock reading blanked out. -/
def Report.eraseTime (rep : Report) : Report := { rep with timestamp := 0 }

/-- A report value with its wall-clock reading blanked out. -/
def ReportOut.eraseTime : ReportOut → ReportOut
  | ReportOut.report rep => ReportOut.report rep.eraseTime
  | ReportOut.failure m => ReportOut.failure m

/-- The report of one full run: aggregation at `tPred`, report composition at
`tRep`.  Feeding a `predict_disease` result to `generate_medical_report`
always succeeds (every key is present), see `generate_on_result`. -/
def theReport (r : RunInput) (q : ℚ) (tPred tRep : Nat) : Report :=
  buildReport (aggregateResult r q tPred).primary_diagnosis
    (aggregateResult r q tPred).confidence
    (aggregateResult r q tPred).significant_diseases
    (aggregateResult r q tPred).multiple_findings
    (aggregateResult r q tPred).image_quality tRep

/-- Validity of one raw output vector, as the spec constrains it: a sigmoid
scalar lies in `[0,1]`, a softmax (2- or 3-way) is nonnegative and sums
to 1.  Other shapes carry no constraint (the code tags them `error`). -/
def ValidOutcome : Option (List ℚ) → Prop
  | none => True
  | some l =>
    match l with
    | [v] => 0 ≤ v ∧ v ≤ 1
    | [a, c] => 0 ≤ a ∧ 0 ≤ c ∧ a + c = 1
    | [a, b, c] => 0 ≤ a ∧ 0 ≤ b ∧ 0 ≤ c ∧ a + b + c = 1
    | _ => True

/-- Every classifier output of the run is a valid probability vector. -/
def ValidInput (r : RunInput) : Prop :=
  ∀ e ∈ r.entries, ValidOutcome e.2

/-- Spec side of C1, written from the spec words: the label of the argmax
class over (normal, benign, malignant) with that class's probability as
confidence, ties broken by the fixed priority malignant > benign > normal. -/
def softmaxArgmaxSpec (n b m : ℚ) : String × ℚ :=
  if n ≤ m ∧ b ≤ m then ("lung_cancer_malignant", m)
  else if n ≤ b ∧ m ≤ b then ("lung_cancer_benign", b)
  else ("normal", n)

/-- Spec scenario of C4: sigmoid pneumonia 0.3, sigmoid tuberculosis 0.85,
softmax lung cancer (0.1, 0.1, 0.8). -/
def scenarioTwoFindings : RunInput :=
  { pneumonia := some (some [0.3])
    tuberculosis := some (some [0.85])
    lung_cancer := some (some [0.1, 0.1, 0.8]) }

/-- A run refuting the sortedness of `significant_diseases`: pneumonia fires
at 0.6, tuberculosis at 0.9, lung cancer is normal — dict insertion order
puts the 0.6 finding first. -/
def scenarioUnsorted : RunInput :=
  { pneumonia := some (some [0.6])
    tuberculosis := some (some [0.9])
    lung_cancer := some (some [0.8, 0.1, 0.1]) }

/-- A run in which every classifier raises during inference. -/
def scenarioAllError : RunInput :=
  { pneumonia := some none
    tuberculosis := some none
    lung_cancer := some none }

/-- A run in which pneumonia raises while the other two classifiers report
normal (tuberculosis sigmoid 0.3, lung cancer softmax (0.8, 0.1, 0.1)). -/
def scenarioOneError : RunInput :=
  { pneumonia := some none
    tuberculosis := some (some [0.3])
    lung_cancer := some (some [0.8, 0.1, 0.1]) }

end Respiro

namespace Respiro

/-! ### Helper lemmas about the embedded definitions -/

theorem generate_on_result (res : PredictionResult) (t : Nat) :
    generate_medical_report (toPredDict res) t =
      ReportOut.report (buildReport res.primary_diagnosis res.confidence
        res.significant_diseases res.multiple_findings res.image_quality t) := rfl

theorem run_pipeline_eq (r : RunInput) (q : ℚ) (tp tr : Nat) :
    run_pipeline r q tp tr = some (ReportOut.report (theReport r q tp tr)) := rfl

theorem mem_significant {r : RunInput} {e : Disease × String × ℚ} :
    e ∈ significant r ↔
      e ∈ classified r ∧ e.2.1 ≠ "normal" ∧ e.2.1 ≠ "error" ∧ (0.5 : ℚ) < e.2.2 := by
  simp [significant, List.mem_filter, and_assoc]

theorem classifyOne_fst_ne_empty (d : Disease) (o : Option (List ℚ)) :
    (classifyOne d o).1 ≠ "" := by
  unfold classifyOne
  rcases o with _ | out
  · simp
  rcases d <;> rcases out with _ | ⟨a, _ | ⟨b, _ | ⟨c, _ | rest⟩⟩⟩ <;>
    dsimp only <;> (try split_ifs) <;> simp

theorem classifyOne_error_conf (d : Disease) (o : Option (List ℚ))
    (h : (classifyOne d o).1 = "error") : (classifyOne d o).2 = 0 := by
  unfold classifyOne at h ⊢
  rcases o with _ | out
  · rfl
  rcases d <;> rcases out with _ | ⟨a, _ | ⟨b, _ | ⟨c, _ | rest⟩⟩⟩ <;>
    dsimp only at h ⊢ <;> (try split_ifs at h ⊢) <;>
    first
      | rfl
      | (exact absurd h (by simp))

theorem maxByConf_eq_none {l : List (Disease × String × ℚ)} :
    maxByConf l = none ↔ l = [] := by
  cases l <;> simp [maxByConf]

theorem foldlBest_eq_or_mem (xs : List (Disease × String × ℚ))
    (acc : Disease × String × ℚ) :
    xs.foldl (fun acc y => if y.2.2 > acc.2.2 then y else acc) acc = acc ∨
      xs.foldl (fun acc y => if y.2.2 > acc.2.2 then y else acc) acc ∈ xs := by
  induction xs generalizing acc with
  | nil => exact Or.inl rfl
  | cons y ys ih =>
    rcases ih (if y.2.2 > acc.2.2 then y else acc) with h | h
    · rw [List.foldl_cons, h]
      split_ifs with hc
      · exact Or.inr (List.mem_cons_self _ _)
      · exact Or.inl rfl
    · exact Or.inr (List.mem_cons_of_mem _ h)

theorem acc_le_foldlBest (xs : List (Disease × String × ℚ))
    (acc : Disease × String × ℚ) :
    acc.2.2 ≤ (xs.foldl (fun acc y => if y.2.2 > acc.2.2 then y else acc) acc).2.2 := by
  induction xs generalizing acc with
  | nil => exact le_refl _
  | cons y ys ih =>
    rw [List.foldl_cons]
    refine le_trans ?_ (ih _)
    split_ifs with hc
    · exact le_of_lt hc
    · exact le_refl _

theorem mem_le_foldlBest (xs : List (Disease × String × ℚ))
    (acc : Disease × String × ℚ) :
    ∀ y ∈ xs, y.2.2 ≤ (xs.foldl (fun acc y => if y.2.2 > acc.2.2 then y else acc) acc).2.2 := by
  induction xs generalizing acc with
  | nil => intro y hy; cases hy
  | cons x xs ih =>
    intro y hy
    rw [List.foldl_cons]
    rcases List.mem_cons.mp hy with rfl | hy
    · refine le_trans ?_ (acc_le_foldlBest _ _)
      split_ifs with hc
      · exact le_refl _
      · exact le_of_not_lt hc
    · exact ih _ y hy

theorem maxByConf_mem {l : List (Disease × String × ℚ)}
    {x : Disease × String × ℚ} (h : maxByConf l = some x) : x ∈ l := by
  rcases l with _ | ⟨a, xs⟩
  · cases h
  · simp only [maxByConf, Option.some.injEq] at h
    rcases foldlBest_eq_or_mem xs a with h' | h'
    · rw [h] at h'; rw [h']; exact List.mem_cons_self _ _
    · rw [h] at h'; exact List.mem_cons_of_mem _ h'

theorem maxByConf_ge {l : List (Disease × String × ℚ)}
    {x : Disease × String × ℚ} (h : maxByConf l = some x) :
    ∀ y ∈ l, y.2.2 ≤ x.2.2 := by
  rcases l with _ | ⟨a, xs⟩
  · intro y hy; cases hy
  · simp only [maxByConf, Option.some.injEq] at h
    intro y hy
    rcases List.mem_cons.mp hy with rfl | hy
    · rw [← h]; exact acc_le_foldlBest xs y
    · rw [← h]; exact mem_le_foldlBest xs a y hy

theorem acc_le_foldlMax (cs : List ℚ) (acc : ℚ) : acc ≤ cs.foldl max acc := by
  induction cs generalizing acc with
  | nil => exact le_refl _
  | cons c cs ih => exact le_trans (le_max_left _ _) (ih _)

theorem mem_le_foldlMax (cs : List ℚ) (acc : ℚ) :
    ∀ x ∈ cs, x ≤ cs.foldl max acc := by
  induction cs generalizing acc with
  | nil => intro x hx; cases hx
  | cons c cs ih =>
    intro x hx
    rcases List.mem_cons.mp hx with rfl | hx
    · exact le_trans (le_max_right _ _) (acc_le_foldlMax _ _)
    · exact ih _ x hx

theorem foldlMax_eq_or_mem (cs : List ℚ) (acc : ℚ) :
    cs.foldl max acc = acc ∨ cs.foldl max acc ∈ cs := by
  induction cs generalizing acc with
  | nil => exact Or.inl rfl
  | cons c cs ih =>
    rcases ih (max acc c) with h | h
    · rw [List.foldl_cons, h]
      rcases max_choice acc c with h' | h'
      · exact Or.inl h'
      · rw [h']; exact Or.inr (List.mem_cons_self _ _)
    · exact Or.inr (List.mem_cons_of_mem _ h)

theorem le_listMax {l : List ℚ} : ∀ x ∈ l, x ≤ listMax l := by
  rcases l with _ | ⟨c, cs⟩
  · intro x hx; cases hx
  · intro x hx
    rcases List.mem_cons.mp hx with rfl | hx
    · exact acc_le_foldlMax cs x
    · exact mem_le_foldlMax cs c x hx

theorem listMax_mem {l : List ℚ} (h : l ≠ []) : listMax l ∈ l := by
  rcases l with _ | ⟨c, cs⟩
  · exact absurd rfl h
  · rcases foldlMax_eq_or_mem cs c with h' | h'
    · exact List.mem_cons.mpr (Or.inl h')
    · exact List.mem_cons_of_mem _ h'

theorem classifyOne_conf_pos (d : Disease) (o : Option (List ℚ))
    (hv : ValidOutcome o) (h : (classifyOne d o).1 ≠ "error") :
    0 < (classifyOne d o).2 := by
  unfold classifyOne at h ⊢
  rcases o with _ | out
  · exact absurd rfl h
  rcases d
  case pneumonia | tuberculosis =>
    rcases out with _ | ⟨p, rest⟩
    · exact absurd rfl h
    · dsimp only at h ⊢
      split_ifs with hp
      · linarith
      · push_neg at hp; dsimp only; linarith
  case lung_cancer =>
    rcases out with _ | ⟨n, _ | ⟨b, _ | ⟨m, _ | rest⟩⟩⟩
    · exact absurd rfl h
    · exact absurd rfl h
    · rcases hv with ⟨hn, hc, hs⟩
      dsimp only at h ⊢
      split_ifs with hcmp
      · dsimp only; linarith
      · push_neg at hcmp; dsimp only; linarith
    · rcases hv with ⟨hn, hb, hm, hs⟩
      dsimp only at h ⊢
      split_ifs with h1 h2
      · have hbn : b ≤ max b m := le_max_left _ _
        have hnn : n ≤ max n (max b m) := le_max_left _ _
        have hbm : max b m ≤ max n (max b m) := le_max_right _ _
        rw [← h1] at hnn hbm
        dsimp only
        linarith [le_trans hbn hbm]
      · have hmm : m ≤ max b m := le_max_right _ _
        have hnn : n ≤ max n (max b m) := le_max_left _ _
        have hbm : max b m ≤ max n (max b m) := le_max_right _ _
        rw [← h2] at hnn hbm
        dsimp only
        linarith [le_trans hmm hbm]
      · have hmx : max n (max b m) = n := by
          rcases max_choice n (max b m) with hx | hx
          · exact hx
          · rcases max_choice b m with hy | hy
            · exact absurd (hx.trans hy).symm h2
            · exact absurd (hx.trans hy).symm h1
        have hbn : b ≤ max b m := le_max_left _ _
        have hmm : m ≤ max b m := le_max_right _ _
        have hbm : max b m ≤ max n (max b m) := le_max_right _ _
        rw [hmx] at hbm
        dsimp only
        linarith [le_trans hbn hbm, le_trans hmm hbm]
    · exact absurd rfl h

theorem mem_classified {r : RunInput} {e : Disease × String × ℚ}
    (h : e ∈ classified r) :
    ∃ a ∈ r.entries, e = (a.1, classifyOne a.1 a.2) := by
  rcases List.mem_map.mp h with ⟨a, ha, rfl⟩
  exact ⟨a, ha, rfl⟩

theorem classified_fst_ne_empty {r : RunInput} {e : Disease × String × ℚ}
    (h : e ∈ classified r) : e.2.1 ≠ "" := by
  rcases mem_classified h with ⟨a, _, rfl⟩
  exact classifyOne_fst_ne_empty a.1 a.2

theorem classified_error_conf {r : RunInput} {e : Disease × String × ℚ}
    (h : e ∈ classified r) (he : e.2.1 = "error") : e.2.2 = 0 := by
  rcases mem_classified h with ⟨a, _, rfl⟩
  exact classifyOne_error_conf a.1 a.2 he

theorem classified_conf_pos {r : RunInput} {e : Disease × String × ℚ}
    (hv : ValidInput r) (h : e ∈ classified r) (he : e.2.1 ≠ "error") :
    0 < e.2.2 := by
  rcases mem_classified h with ⟨a, ha, rfl⟩
  exact classifyOne_conf_pos a.1 a.2 (hv a ha) he

theorem aggregate_empty (r : RunInput) (q : ℚ) (t : Nat)
    (h : significant r = []) :
    (aggregateResult r q t).primary_diagnosis = "normal" ∧
    (aggregateResult r q t).confidence =
      (if (classified r).map (fun e => e.2.2) = [] then 0.85
       else if listMax ((classified r).map (fun e => e.2.2)) = 0 then 0.85
       else listMax ((classified r).map (fun e => e.2.2))) ∧
    (aggregateResult r q t).multiple_findings = false := by
  unfold aggregateResult
  rw [h]
  simp only [maxByConf]
  split_ifs <;> simp_all

theorem aggregate_nonempty (r : RunInput) (q : ℚ) (t : Nat)
    (h : significant r ≠ []) :
    ∃ best, maxByConf (significant r) = some best ∧ best ∈ significant r ∧
      (aggregateResult r q t).primary_diagnosis = best.2.1 ∧
      (aggregateResult r q t).confidence = best.2.2 ∧
      (aggregateResult r q t).multiple_findings =
        decide (1 < (significant r).length) := by
  rcases hb : maxByConf (significant r) with _ | best
  · exact absurd (maxByConf_eq_none.mp hb) h
  have hmem : best ∈ significant r := maxByConf_mem hb
  have hlbl : best.2.1 ≠ "" :=
    classified_fst_ne_empty (mem_significant.mp hmem).1
  have hconf : (0.5 : ℚ) < best.2.2 := (mem_significant.mp hmem).2.2.2
  refine ⟨best, rfl, hmem, ?_⟩
  simp only [aggregateResult, hb]
  rw [if_neg hlbl]
  rw [if_neg (show ¬best.2.2 = 0 by intro h0; rw [h0] at hconf; norm_num at hconf)]
  exact ⟨rfl, rfl, trivial⟩

theorem sortFindings_sorted (l : List Finding) :
    List.Pairwise (fun a b : Finding => b.confidence_numeric ≤ a.confidence_numeric)
      (sortFindings l) := by
  haveI : IsTotal Finding
      (fun a b : Finding => b.confidence_numeric ≤ a.confidence_numeric) :=
    ⟨fun a b => le_total b.confidence_numeric a.confidence_numeric⟩
  haveI : IsTrans Finding
      (fun a b : Finding => b.confidence_numeric ≤ a.confidence_numeric) :=
    ⟨fun a b c hab hbc => le_trans hbc hab⟩
  exact List.sorted_insertionSort _ l

theorem mem_sortFindings {l : List Finding} {f : Finding} :
    f ∈ sortFindings l ↔ f ∈ l :=
  (List.perm_insertionSort _ l).mem_iff

theorem sortFindings_length (l : List Finding) :
    (sortFindings l).length = l.length :=
  (List.perm_insertionSort _ l).length_eq

theorem buildReport_all_findings (diagnosis : String) (conf : ℚ)
    (sig : List (Disease × String × ℚ)) (multi : Bool) (iq : ℚ) (now : Nat) :
    (buildReport diagnosis conf sig multi iq now).all_findings =
      (if diagnosis = "normal" then []
       else sortFindings (sig.map (fun e => mkFinding e.2.1 e.2.2))) := by
  unfold buildReport
  rcases hD : DISEASE_INFO diagnosis with _ | info <;>
    simp only [hD] <;> split_ifs <;> rfl

theorem buildReport_urgency (diagnosis : String) (conf : ℚ)
    (sig : List (Disease × String × ℚ)) (multi : Bool) (iq : ℚ) (now : Nat)
    (h : diagnosis ≠ "normal") :
    (buildReport diagnosis conf sig multi iq now).urgency =
      some (if multi then "High" else if conf > 0.8 then "High"
            else if conf > 0.6 then "Medium" else "Low") := by
  unfold buildReport
  rcases hD : DISEASE_INFO diagnosis with _ | info <;>
    simp only [hD] <;> split_ifs <;> simp_all

theorem buildReport_eraseTime (diagnosis : String) (conf : ℚ)
    (sig : List (Disease × String × ℚ)) (multi : Bool) (iq : ℚ) (t t' : Nat) :
    (buildReport diagnosis conf sig multi iq t).eraseTime =
      (buildReport diagnosis conf sig multi iq t').eraseTime := by
  unfold buildReport Report.eraseTime
  rcases hD : DISEASE_INFO diagnosis with _ | info <;>
    simp only [hD] <;> split_ifs <;> rfl

/-! ### The claims -/

/-- C1: for every 3-element softmax output (n, b, m) of the lung-cancer
classifier, the aggregator assigns the label of the argmax class —
lung_cancer_malignant, lung_cancer_benign or normal — with that class's
probability as confidence, ties broken by the fixed priority
malignant > benign > normal. -/
theorem C1_softmax_argmax (n b m : ℚ) (hn : 0 ≤ n) (hb : 0 ≤ b) (hm : 0 ≤ m)
    (hs : n + b + m = 1) :
    classifyOne Disease.lung_cancer (some [n, b, m]) = softmaxArgmaxSpec n b m := by
  have hn' : n ≤ max n (max b m) := le_max_left _ _
  have hb' : b ≤ max n (max b m) := le_trans (le_max_left _ _) (le_max_right _ _)
  have hm' : m ≤ max n (max b m) := le_trans (le_max_right _ _) (le_max_right _ _)
  simp only [classifyOne, softmaxArgmaxSpec]
  by_cases hA : n ≤ m ∧ b ≤ m
  · have hmx : m = max n (max b m) := by
      rw [max_eq_right hA.2, max_eq_right hA.1]
    rw [if_pos hmx, if_pos hA]
  · have hne : ¬m = max n (max b m) := by
      intro hEq
      exact hA ⟨le_of_le_of_eq hn' hEq.symm, le_of_le_of_eq hb' hEq.symm⟩
    rw [if_neg hne, if_neg hA]
    by_cases hB : n ≤ b ∧ m ≤ b
    · have hmxb : b = max n (max b m) := by
        rw [max_eq_left hB.2, max_eq_right hB.1]
      rw [if_pos hmxb, if_pos hB]
    · have hneb : ¬b = max n (max b m) := by
        intro hEq
        exact hB ⟨le_of_le_of_eq hn' hEq.symm, le_of_le_of_eq hm' hEq.symm⟩
      rw [if_neg hneb, if_neg hB]

/-- Witness for C1 at the concrete softmax triple (0.1, 0.1, 0.8). -/
theorem C1_softmax_argmax_witness :
    classifyOne Disease.lung_cancer (some [0.1, 0.1, 0.8]) =
      softmaxArgmaxSpec 0.1 0.1 0.8 :=
  C1_softmax_argmax 0.1 0.1 0.8 (by norm_num) (by norm_num) (by norm_num)
    (by norm_num)

/-- C2: for every sigmoid scalar v in [0,1] of the pneumonia or tuberculosis
classifier, the aggregator labels the positive class iff v > 0.5 (otherwise
normal), and the reported confidence is max(v, 1 - v). -/
theorem C2_sigmoid_threshold (v : ℚ) (h0 : 0 ≤ v) (h1 : v ≤ 1) :
    ((classifyOne Disease.pneumonia (some [v])).1 = "pneumonia" ↔ 0.5 < v) ∧
    ((classifyOne Disease.pneumonia (some [v])).1 = "normal" ↔ ¬0.5 < v) ∧
    (classifyOne Disease.pneumonia (some [v])).2 = max v (1 - v) ∧
    ((classifyOne Disease.tuberculosis (some [v])).1 = "tuberculosis" ↔ 0.5 < v) ∧
    ((classifyOne Disease.tuberculosis (some [v])).1 = "normal" ↔ ¬0.5 < v) ∧
    (classifyOne Disease.tuberculosis (some [v])).2 = max v (1 - v) := by
  by_cases hv : (0.5 : ℚ) < v
  · have hmax : max v (1 - v) = v := max_eq_left (by linarith)
    simp [classifyOne, hv, hmax]
  · have hmax : max v (1 - v) = 1 - v := max_eq_right (by linarith)
    simp [classifyOne, hv, hmax]

/-- Witness for C2 at the concrete sigmoid value 0.7. -/
theorem C2_sigmoid_threshold_witness :
    (classifyOne Disease.pneumonia (some [0.7])).1 = "pneumonia" ∧
    (classifyOne Disease.tuberculosis (some [0.7])).2 = max 0.7 (1 - 0.7) := by
  refine ⟨?_, ?_⟩
  · exact (C2_sigmoid_threshold 0.7 (by norm_num) (by norm_num)).1.mpr (by norm_num)
  · exact (C2_sigmoid_threshold 0.7 (by norm_num) (by norm_num)).2.2.2.2.2

theorem aggregate_sig (r : RunInput) (q : ℚ) (t : Nat) :
    (aggregateResult r q t).significant_diseases = significant r := rfl

theorem aggregate_iq (r : RunInput) (q : ℚ) (t : Nat) :
    (aggregateResult r q t).image_quality = q := rfl

theorem significant_scenarioTwoFindings :
    significant scenarioTwoFindings =
      [(Disease.tuberculosis, "tuberculosis", 0.85),
       (Disease.lung_cancer, "lung_cancer_malignant", 0.8)] := by
  norm_num [significant, classified, RunInput.entries, classifyOne,
    scenarioTwoFindings, List.filter]
  simp

theorem significant_scenarioUnsorted :
    significant scenarioUnsorted =
      [(Disease.pneumonia, "pneumonia", 0.6),
       (Disease.tuberculosis, "tuberculosis", 0.9)] := by
  norm_num [significant, classified, RunInput.entries, classifyOne,
    scenarioUnsorted, List.filter]
  simp

theorem classified_scenarioAllError :
    classified scenarioAllError =
      [(Disease.pneumonia, "error", 0), (Disease.tuberculosis, "error", 0),
       (Disease.lung_cancer, "error", 0)] := by
  norm_num [classified, RunInput.entries, classifyOne, scenarioAllError]

theorem significant_scenarioAllError : significant scenarioAllError = [] := by
  rw [significant, classified_scenarioAllError]
  simp [List.filter]

/-- C3 counterexample: with pneumonia firing at 0.6 and tuberculosis at 0.9,
the `significant_diseases` dict holds its entries in classifier order
(0.6 before 0.9), so the aggregator's FindingSet is not sorted by confidence
descending. -/
theorem C3_counterexample :
    significant scenarioUnsorted =
      [(Disease.pneumonia, "pneumonia", 0.6),
       (Disease.tuberculosis, "tuberculosis", 0.9)] ∧
    ¬ List.Pairwise (fun a b : Disease × String × ℚ => b.2.2 ≤ a.2.2)
        (significant scenarioUnsorted) := by
  refine ⟨significant_scenarioUnsorted, ?_⟩
  rw [significant_scenarioUnsorted]
  intro hp
  have := List.rel_of_pairwise_cons hp (List.mem_singleton_self _)
  norm_num at this

/-- C3 (amended): the aggregator's FindingSet never contains a normal or an
error entry and only confidences above 0.5; the report's `all_findings` is
additionally sorted by confidence descending, while `significant_diseases`
itself keeps classifier insertion order (see the counterexample). -/
theorem C3_findingset (r : RunInput) (q : ℚ) (tp tr : Nat) :
    (∀ e ∈ significant r, e.2.1 ≠ "normal" ∧ e.2.1 ≠ "error" ∧ (0.5 : ℚ) < e.2.2) ∧
    List.Pairwise (fun a b : Finding => b.confidence_numeric ≤ a.confidence_numeric)
      (theReport r q tp tr).all_findings ∧
    (∀ f ∈ (theReport r q tp tr).all_findings, (0.5 : ℚ) < f.confidence_numeric) := by
  refine ⟨fun e he => (mem_significant.mp he).2, ?_, ?_⟩
  · unfold theReport
    rw [buildReport_all_findings]
    split_ifs
    · exact List.Pairwise.nil
    · exact sortFindings_sorted _
  · unfold theReport
    rw [buildReport_all_findings]
    split_ifs
    · intro f hf; cases hf
    · intro f hf
      rw [mem_sortFindings] at hf
      rcases List.mem_map.mp hf with ⟨e, he, rfl⟩
      rw [aggregate_sig] at he
      exact (mem_significant.mp he).2.2.2

theorem aggregate_scenarioTwoFindings (q : ℚ) (t : Nat) :
    (aggregateResult scenarioTwoFindings q t).primary_diagnosis = "tuberculosis" ∧
    (aggregateResult scenarioTwoFindings q t).confidence = 0.85 ∧
    (aggregateResult scenarioTwoFindings q t).multiple_findings = true := by
  have hmax : maxByConf (significant scenarioTwoFindings) =
      some (Disease.tuberculosis, "tuberculosis", 0.85) := by
    rw [significant_scenarioTwoFindings]
    norm_num [maxByConf]
  simp only [aggregateResult, hmax]
  norm_num [significant_scenarioTwoFindings]
  simp

theorem report_scenarioTwoFindings (tp tr : Nat) :
    (theReport scenarioTwoFindings 80 tp tr).all_findings.map
        (fun f => (f.disease, f.confidence_numeric)) =
      [("Tuberculosis", 0.85), ("Lung Cancer Malignant", 0.8)] := by
  unfold theReport
  rw [buildReport_all_findings, aggregate_sig,
    (aggregate_scenarioTwoFindings 80 tp).1, significant_scenarioTwoFindings]
  rw [if_neg (by simp : ¬("tuberculosis" : String) = "normal")]
  norm_num [sortFindings, List.insertionSort, List.orderedInsert, mkFinding,
    DISEASE_INFO]
  simp [pyTitle, underscoresToSpaces, pyTitleAux]

/-- C4: whenever two or more classifiers exceed 0.5 confidence on non-normal
classes, multiple_findings is true and the report lists all of them ordered
by confidence; in the spec scenario (pneumonia 0.3, tuberculosis 0.85, lung
cancer (0.1, 0.1, 0.8)) the findings are tuberculosis at 0.85 then
lung_cancer_malignant at 0.8, the overall diagnosis is tuberculosis and
multiple_findings is true. -/
theorem C4_multiple_findings (r : RunInput) (q : ℚ) (tp tr : Nat)
    (h : 2 ≤ (significant r).length) :
    (aggregateResult r q tp).multiple_findings = true ∧
    (theReport r q tp tr).all_findings.length = (significant r).length ∧
    List.Pairwise (fun a b : Finding => b.confidence_numeric ≤ a.confidence_numeric)
      (theReport r q tp tr).all_findings ∧
    (aggregateResult scenarioTwoFindings 80 tp).primary_diagnosis = "tuberculosis" ∧
    (aggregateResult scenarioTwoFindings 80 tp).confidence = 0.85 ∧
    (aggregateResult scenarioTwoFindings 80 tp).multiple_findings = true ∧
    (theReport scenarioTwoFindings 80 tp tr).all_findings.map
        (fun f => (f.disease, f.confidence_numeric)) =
      [("Tuberculosis", 0.85), ("Lung Cancer Malignant", 0.8)] := by
  have hne : significant r ≠ [] := by
    intro h0
    rw [h0] at h
    norm_num at h
  obtain ⟨best, hb, hmem, hprim, hconf, hmulti⟩ := aggregate_nonempty r q tp hne
  have hprimne : (aggregateResult r q tp).primary_diagnosis ≠ "normal" := by
    rw [hprim]
    exact (mem_significant.mp hmem).2.1
  refine ⟨?_, ?_, ?_, (aggregate_scenarioTwoFindings 80 tp).1,
    (aggregate_scenarioTwoFindings 80 tp).2.1,
    (aggregate_scenarioTwoFindings 80 tp).2.2,
    report_scenarioTwoFindings tp tr⟩
  · rw [hmulti]
    simp only [decide_eq_true_eq]
    omega
  · unfold theReport
    rw [buildReport_all_findings, if_neg hprimne, aggregate_sig,
      sortFindings_length, List.length_map]
  · unfold theReport
    rw [buildReport_all_findings, if_neg hprimne]
    exact sortFindings_sorted _

/-- Witness for C4 at the spec scenario, which has two significant
findings. -/
theorem C4_multiple_findings_witness :
    (aggregateResult scenarioTwoFindings 80 0).multiple_findings = true ∧
    (theReport scenarioTwoFindings 80 0 0).all_findings.length =
      (significant scenarioTwoFindings).length := by
  have h2 : 2 ≤ (significant scenarioTwoFindings).length := by
    rw [significant_scenarioTwoFindings]
    norm_num
  exact ⟨(C4_multiple_findings scenarioTwoFindings 80 0 0 h2).1,
    (C4_multiple_findings scenarioTwoFindings 80 0 0 h2).2.1⟩

theorem scores_scenarioAllError :
    (classified scenarioAllError).map (fun e => e.2.2) = [0, 0, 0] := by
  rw [classified_scenarioAllError]
  norm_num

theorem aggregate_scenarioAllError (q : ℚ) (t : Nat) :
    (aggregateResult scenarioAllError q t).primary_diagnosis = "normal" ∧
    (aggregateResult scenarioAllError q t).confidence = 0.85 := by
  obtain ⟨hp, hc, _⟩ :=
    aggregate_empty scenarioAllError q t significant_scenarioAllError
  rw [scores_scenarioAllError] at hc
  norm_num [listMax] at hc
  refine ⟨hp, ?_⟩
  rw [hc]
  norm_num

/-- C5 counterexample: when every classifier errors, the FindingSet is empty
and every reported confidence is 0, yet the overall confidence is the 0.85
default rather than the maximum (0) of the reported confidences. -/
theorem C5_counterexample :
    significant scenarioAllError = [] ∧
    (classified scenarioAllError).map (fun e => e.2.2) = [0, 0, 0] ∧
    (aggregateResult scenarioAllError 80 0).confidence = 0.85 ∧
    (aggregateResult scenarioAllError 80 0).confidence ≠
      listMax ((classified scenarioAllError).map (fun e => e.2.2)) := by
  refine ⟨significant_scenarioAllError, scores_scenarioAllError,
    (aggregate_scenarioAllError 80 0).2, ?_⟩
  rw [(aggregate_scenarioAllError 80 0).2, scores_scenarioAllError]
  norm_num [listMax]

/-- C5 (amended): when the FindingSet is empty the overall diagnosis is
normal; the overall confidence is the maximum of all classifiers' reported
confidences when that maximum is nonzero, and the default 0.85 either when no
classifiers ran at all or when every reported confidence is zero (all
classifiers errored). -/
theorem C5_normal_fallback (r : RunInput) (q : ℚ) (t : Nat)
    (h : significant r = []) :
    (aggregateResult r q t).primary_diagnosis = "normal" ∧
    (aggregateResult r q t).confidence =
      (if (classified r).map (fun e => e.2.2) = [] then 0.85
       else if listMax ((classified r).map (fun e => e.2.2)) = 0 then 0.85
       else listMax ((classified r).map (fun e => e.2.2))) ∧
    (aggregateResult r q t).multiple_findings = false :=
  aggregate_empty r q t h

/-- Witness for C5 at the all-error run, whose FindingSet is empty. -/
theorem C5_normal_fallback_witness :
    (aggregateResult scenarioAllError 80 0).primary_diagnosis = "normal" ∧
    (aggregateResult scenarioAllError 80 0).multiple_findings = false :=
  ⟨(C5_normal_fallback scenarioAllError 80 0 significant_scenarioAllError).1,
   (C5_normal_fallback scenarioAllError 80 0 significant_scenarioAllError).2.2⟩

/-- C6 counterexample: when ALL classifiers fail during inference the request
does not fail with an analysis error — the route check does not fire and the
user receives a normal fallback result at confidence 0.85. -/
theorem C6_counterexample :
    routeRejects (predict_disease (some (scenarioAllError, 80)) 0) = false ∧
    (predict_disease (some (scenarioAllError, 80)) 0).map
        (fun res => res.primary_diagnosis) = some "normal" ∧
    (predict_disease (some (scenarioAllError, 80)) 0).map
        (fun res => res.confidence) = some 0.85 := by
  refine ⟨rfl, ?_, ?_⟩
  · simp only [predict_disease, Option.map]
    exact congrArg some (aggregate_scenarioAllError 80 0).1
  · simp only [predict_disease, Option.map]
    exact congrArg some (aggregate_scenarioAllError 80 0).2

/-- C6 (corrected): when every classifier fails during inference the request
still succeeds: predict_disease returns a normal fallback result at
confidence 0.85 and the route's error check does not fire; the generic
analysis error is produced exactly when predict_disease returns None, i.e.
when image preprocessing fails. -/
theorem C6_all_error_fallback (r : RunInput) (q : ℚ) (t : Nat)
    (h : ∀ e ∈ classified r, e.2.1 = "error") :
    (predict_disease (some (r, q)) t).map
        (fun res => (res.primary_diagnosis, res.confidence)) =
      some ("normal", 0.85) ∧
    routeRejects (predict_disease (some (r, q)) t) = false ∧
    routeRejects (predict_disease none t) = true := by
  have hsig : significant r = [] := by
    unfold significant
    rw [List.filter_eq_nil_iff]
    intro e he
    simp only [decide_eq_true_eq, not_and]
    intro _ habs
    exact absurd (h e he) habs
  obtain ⟨hp, hc, _⟩ := aggregate_empty r q t hsig
  have hzero : ∀ c ∈ (classified r).map (fun e => e.2.2), c = 0 := by
    intro c hcm
    rcases List.mem_map.mp hcm with ⟨e, he, rfl⟩
    exact classified_error_conf he (h e he)
  have hconf : (aggregateResult r q t).confidence = 0.85 := by
    rw [hc]
    by_cases hnil : (classified r).map (fun e => e.2.2) = []
    · rw [if_pos hnil]
    · rw [if_neg hnil,
        if_pos (hzero _ (listMax_mem hnil))]
  refine ⟨?_, rfl, rfl⟩
  simp only [predict_disease, Option.map]
  rw [hp, hconf]

/-- Witness for C6 at the run in which all three classifiers raise. -/
theorem C6_all_error_fallback_witness :
    (predict_disease (some (scenarioAllError, 80)) 0).map
        (fun res => (res.primary_diagnosis, res.confidence)) =
      some ("normal", 0.85) ∧
    routeRejects (predict_disease none 0) = true := by
  have hall : ∀ e ∈ classified scenarioAllError, e.2.1 = "error" := by
    rw [classified_scenarioAllError]
    intro e he
    simp only [List.mem_cons, List.not_mem_nil, or_false] at he
    rcases he with rfl | rfl | rfl <;> rfl
  exact ⟨(C6_all_error_fallback scenarioAllError 80 0 hall).1,
    (C6_all_error_fallback scenarioAllError 80 0 hall).2.2⟩

/-- C7: a classifier that throws during inference is recorded with label
error and confidence 0.0, and is excluded both from the FindingSet and —
for valid probability vectors, whenever at least one classifier did not
error — from the maximum that determines the normal-fallback confidence. -/
theorem C7_error_exclusion (r : RunInput) (q : ℚ) (t : Nat)
    (hv : ValidInput r)
    (hne : ∃ e ∈ classified r, e.2.1 ≠ "error") :
    (∀ d, classifyOne d none = ("error", 0)) ∧
    (∀ e ∈ significant r, e.2.1 ≠ "error") ∧
    (significant r = [] →
      (aggregateResult r q t).confidence =
        listMax (((classified r).filter (fun e => e.2.1 ≠ "error")).map
          (fun e => e.2.2))) := by
  refine ⟨fun d => rfl, fun e he => (mem_significant.mp he).2.2.1, ?_⟩
  intro hsig
  obtain ⟨e0, he0, hl0⟩ := hne
  have he0f : e0 ∈ (classified r).filter (fun e => e.2.1 ≠ "error") :=
    List.mem_filter.mpr ⟨he0, by simpa using hl0⟩
  have hfne : (((classified r).filter (fun e => e.2.1 ≠ "error")).map
      (fun e => e.2.2)) ≠ [] := by
    simp only [ne_eq, List.map_eq_nil_iff]
    exact List.ne_nil_of_mem he0f
  have hcne : ((classified r).map (fun e => e.2.2)) ≠ [] := by
    simp only [ne_eq, List.map_eq_nil_iff]
    exact List.ne_nil_of_mem he0
  have he0pos : 0 < e0.2.2 := classified_conf_pos hv he0 hl0
  have hApos : 0 < listMax ((classified r).map (fun e => e.2.2)) :=
    lt_of_lt_of_le he0pos (le_listMax _ (List.mem_map_of_mem _ he0))
  have hBA : listMax (((classified r).filter (fun e => e.2.1 ≠ "error")).map
      (fun e => e.2.2)) ≤ listMax ((classified r).map (fun e => e.2.2)) := by
    obtain ⟨e1, he1, hbe⟩ := List.mem_map.mp (listMax_mem hfne)
    rw [← hbe]
    exact le_listMax _ (List.mem_map_of_mem _ (List.mem_of_mem_filter he1))
  have hAB : listMax ((classified r).map (fun e => e.2.2)) ≤
      listMax (((classified r).filter (fun e => e.2.1 ≠ "error")).map
        (fun e => e.2.2)) := by
    obtain ⟨e1, he1, hae⟩ := List.mem_map.mp (listMax_mem hcne)
    by_cases herr : e1.2.1 = "error"
    · have h0 : e1.2.2 = 0 := classified_error_conf he1 herr
      rw [← hae, h0] at hApos
      exact absurd hApos (lt_irrefl 0)
    · rw [← hae]
      exact le_listMax _ (List.mem_map_of_mem _
        (List.mem_filter.mpr ⟨he1, by simpa using herr⟩))
  obtain ⟨_, hc, _⟩ := aggregate_empty r q t hsig
  rw [hc, if_neg hcne, if_neg (ne_of_gt hApos)]
  exact le_antisymm hAB hBA

theorem classified_scenarioOneError :
    classified scenarioOneError =
      [(Disease.pneumonia, "error", 0),
       (Disease.tuberculosis, "normal", 0.7),
       (Disease.lung_cancer, "normal", 0.8)] := by
  norm_num [classified, RunInput.entries, classifyOne, scenarioOneError]

/-- Witness for C7 at the run where pneumonia raises and the others report
normal. -/
theorem C7_error_exclusion_witness :
    (∀ e ∈ significant scenarioOneError, e.2.1 ≠ "error") ∧
    (significant scenarioOneError = [] →
      (aggregateResult scenarioOneError 80 0).confidence =
        listMax (((classified scenarioOneError).filter
          (fun e => e.2.1 ≠ "error")).map (fun e => e.2.2))) := by
  have hv : ValidInput scenarioOneError := by
    intro e he
    simp only [RunInput.entries, scenarioOneError, List.mem_append,
      List.mem_singleton] at he
    rcases he with (rfl | rfl) | rfl
    · trivial
    · norm_num [ValidOutcome]
    · norm_num [ValidOutcome]
  have hne : ∃ e ∈ classified scenarioOneError, e.2.1 ≠ "error" := by
    rw [classified_scenarioOneError]
    exact ⟨(Disease.tuberculosis, "normal", 0.7),
      List.mem_cons_of_mem _ (List.mem_cons_self _ _), by simp⟩
  exact ⟨(C7_error_exclusion scenarioOneError 80 0 hv hne).2.1,
    (C7_error_exclusion scenarioOneError 80 0 hv hne).2.2⟩

/-- C8: for every non-normal report, urgency is High iff the FindingSet has
more than one entry or the top confidence exceeds 0.8, otherwise Medium iff
the confidence lies in (0.6, 0.8], otherwise Low; the overall confidence is
exactly the top finding confidence. -/
theorem C8_urgency (r : RunInput) (q : ℚ) (tp tr : Nat)
    (h : (aggregateResult r q tp).primary_diagnosis ≠ "normal") :
    (∃ f ∈ (theReport r q tp tr).all_findings,
        f.confidence_numeric = (aggregateResult r q tp).confidence ∧
        ∀ g ∈ (theReport r q tp tr).all_findings,
          g.confidence_numeric ≤ f.confidence_numeric) ∧
    ((theReport r q tp tr).urgency = some "High" ↔
      1 < (theReport r q tp tr).all_findings.length ∨
        0.8 < (aggregateResult r q tp).confidence) ∧
    ((theReport r q tp tr).urgency = some "Medium" ↔
      ¬(1 < (theReport r q tp tr).all_findings.length ∨
          0.8 < (aggregateResult r q tp).confidence) ∧
        0.6 < (aggregateResult r q tp).confidence) ∧
    ((theReport r q tp tr).urgency = some "Low" ↔
      ¬(1 < (theReport r q tp tr).all_findings.length ∨
          0.8 < (aggregateResult r q tp).confidence) ∧
        ¬0.6 < (aggregateResult r q tp).confidence) := by
  have hsigne : significant r ≠ [] := by
    intro h0
    exact h (aggregate_empty r q tp h0).1
  obtain ⟨best, hb, hmem, hprim, hconf, hmulti⟩ := aggregate_nonempty r q tp hsigne
  have hall : (theReport r q tp tr).all_findings =
      sortFindings ((significant r).map (fun e => mkFinding e.2.1 e.2.2)) := by
    unfold theReport
    rw [buildReport_all_findings, if_neg h, aggregate_sig]
  have hlen : (theReport r q tp tr).all_findings.length = (significant r).length := by
    rw [hall, sortFindings_length, List.length_map]
  have hmul_iff : ((aggregateResult r q tp).multiple_findings = true) ↔
      1 < (theReport r q tp tr).all_findings.length := by
    rw [hmulti, hlen]
    simp
  have hU : (theReport r q tp tr).urgency =
      some (if (aggregateResult r q tp).multiple_findings then "High"
            else if (aggregateResult r q tp).confidence > 0.8 then "High"
            else if (aggregateResult r q tp).confidence > 0.6 then "Medium"
            else "Low") := by
    unfold theReport
    exact buildReport_urgency _ _ _ _ _ _ h
  refine ⟨?_, ?_⟩
  · refine ⟨mkFinding best.2.1 best.2.2, ?_, ?_, ?_⟩
    · rw [hall, mem_sortFindings]
      exact List.mem_map_of_mem _ hmem
    · rw [hconf]; rfl
    · intro g hg
      rw [hall, mem_sortFindings] at hg
      rcases List.mem_map.mp hg with ⟨e, he, rfl⟩
      exact maxByConf_ge hb e he
  have hchar : (theReport r q tp tr).urgency =
      some (if 1 < (theReport r q tp tr).all_findings.length ∨
              0.8 < (aggregateResult r q tp).confidence then "High"
            else if 0.6 < (aggregateResult r q tp).confidence then "Medium"
            else "Low") := by
    rw [hU]
    by_cases hm1 : (aggregateResult r q tp).multiple_findings = true
    · rw [if_pos hm1, if_pos (Or.inl (hmul_iff.mp hm1))]
    · have hm0 : ¬(1 < (theReport r q tp tr).all_findings.length) :=
        fun hx => hm1 (hmul_iff.mpr hx)
      simp only [hm1, Bool.false_eq_true, if_false]
      by_cases h8 : (0.8 : ℚ) < (aggregateResult r q tp).confidence
      · rw [if_pos h8, if_pos (Or.inr h8)]
      · rw [if_neg h8,
          if_neg (show ¬(1 < (theReport r q tp tr).all_findings.length ∨
              (0.8 : ℚ) < (aggregateResult r q tp).confidence) by
            rw [not_or]; exact ⟨hm0, h8⟩)]
  by_cases h1 : 1 < (theReport r q tp tr).all_findings.length ∨
      0.8 < (aggregateResult r q tp).confidence <;>
    by_cases h2 : (0.6 : ℚ) < (aggregateResult r q tp).confidence <;>
      simp [hchar, h1, h2]

/-- Witness for C8 at the two-findings scenario, whose primary diagnosis is
tuberculosis. -/
theorem C8_urgency_witness :
    (theReport scenarioTwoFindings 80 0 0).urgency = some "High" := by
  have h : (aggregateResult scenarioTwoFindings 80 0).primary_diagnosis ≠ "normal" := by
    rw [(aggregate_scenarioTwoFindings 80 0).1]
    simp
  refine ((C8_urgency scenarioTwoFindings 80 0 0 h).2.1).mpr (Or.inr ?_)
  rw [(aggregate_scenarioTwoFindings 80 0).2.1]
  norm_num

theorem buildReport_timestamp (diagnosis : String) (conf : ℚ)
    (sig : List (Disease × String × ℚ)) (multi : Bool) (iq : ℚ) (now : Nat) :
    (buildReport diagnosis conf sig multi iq now).timestamp = now := by
  unfold buildReport
  rcases hD : DISEASE_INFO diagnosis with _ | info <;>
    simp only [hD] <;> split_ifs <;> rfl

/-- C9 counterexample: the report carries the `datetime.now()` reading, so
re-running the pipeline on the same raw vectors at a later clock reading
yields a different report. -/
theorem C9_counterexample :
    run_pipeline scenarioTwoFindings 80 0 0 ≠ run_pipeline scenarioTwoFindings 80 1 1 := by
  rw [run_pipeline_eq, run_pipeline_eq]
  intro hEq
  have h1 : theReport scenarioTwoFindings 80 0 0 = theReport scenarioTwoFindings 80 1 1 :=
    ReportOut.report.inj (Option.some.inj hEq)
  have h2 := congrArg Report.timestamp h1
  have ht0 : (theReport scenarioTwoFindings 80 0 0).timestamp = 0 :=
    buildReport_timestamp _ _ _ _ _ 0
  have ht1 : (theReport scenarioTwoFindings 80 1 1).timestamp = 1 :=
    buildReport_timestamp _ _ _ _ _ 1
  rw [ht0, ht1] at h2
  exact absurd h2 (by norm_num)

/-- C9 (amended): apart from the timestamp fields — which carry the two
`datetime.now()` readings — the aggregation-plus-report pipeline is a
deterministic pure function of the raw classifier outputs and the quality
score: any two runs on the same vectors agree after erasing the clock. -/
theorem C9_pure_function (r : RunInput) (q : ℚ) (tp tp' tr tr' : Nat) :
    (run_pipeline r q tp tr).map ReportOut.eraseTime =
      (run_pipeline r q tp' tr').map ReportOut.eraseTime := by
  rw [run_pipeline_eq, run_pipeline_eq]
  simp only [Option.map_some']
  show some (ReportOut.report (theReport r q tp tr).eraseTime) =
    some (ReportOut.report (theReport r q tp' tr').eraseTime)
  exact congrArg (fun rep => some (ReportOut.report rep))
    (buildReport_eraseTime _ _ _ _ _ tr tr')

/-- C10: `generate_medical_report` never raises: for every input dict it
either returns the composed report, or — when a required key is missing and
the body raises — the fixed error dict. -/
theorem C10_report_never_raises (d : PredDict) (t : Nat) :
    (∃ rep, reportBody d t = Except.ok rep ∧
        generate_medical_report d t = ReportOut.report rep) ∨
    (reportBody d t = Except.error () ∧
        generate_medical_report d t = ReportOut.failure "Could not generate report") := by
  rcases hb : reportBody d t with e | rep
  · cases e
    right
    exact ⟨rfl, by unfold generate_medical_report; rw [hb]⟩
  · left
    exact ⟨rep, rfl, by unfold generate_medical_report; rw [hb]⟩

end Respiro
